import Mathlib

/-!
# Verification of the Go object-storage read benchmark (`main.go`)

A shallow embedding of the benchmark harness in `src/main.go`.  The program
opens a storage client (HTTP or gRPC), attaches a retry policy, provisions a
bucket, fans out `NumOfWorker` goroutines each performing
`NumOfReadCallPerWorker` sequential object reads, and reports the first error
(or success) after all workers finish.

External effects (the storage service, the scheduler, `os.Setenv`) are
modelled by explicit oracles/parameters; the control flow, string
construction and event ordering are translated line by line from the source.
-/

namespace Bench

/-- Go error values are observed through their message (`err.Error()` /
`%v` formatting); we model an error as its message string. -/
abbrev GoError := String

/-! ## Package-level configuration constants (src/main.go lines 24-47) -/

def GrpcConnPoolSize : Nat := 1
def MaxConnsPerHost : Nat := 100
def MaxIdelConnsPerHost : Nat := 100

/-- `NumOfWorker = 48` -/
def NumOfWorker : Nat := 48

/-- `NumOfReadCallPerWorker = 800` -/
def NumOfReadCallPerWorker : Nat := 800

def BucketName : String := "golang-grpc-test-princer-gcsfuse-us-central"
def ProjectName : String := "gcs-fuse-test"

/-- `ObjectNamePrefix = "50mb/1_thread."` (line 43). -/
def ObjectNamePrefix : String := "50mb/1_thread."

/-- `ObjectNameSuffix = ".0"` (line 44). -/
def ObjectNameSuffix : String := ".0"

/-! ## Object-name derivation (line 116)

`objectName := ObjectNamePrefix + strconv.Itoa(workerId) + ObjectNameSuffix`.
`strconv.Itoa` on a nonnegative integer is decimal notation, i.e. `Nat.repr`. -/

def objectName (workerId : Nat) : String :=
  ObjectNamePrefix ++ Nat.repr workerId ++ ObjectNameSuffix

/-! ## The Object Reader (`ReadObject`, lines 114-138)

The storage service's behaviour for each loop iteration is an oracle
`Nat → ReadOutcome`: iteration `i` either fails at `object.NewReader`
(line 121), fails at `io.Copy` (line 126), or succeeds yielding a measured
duration (in nanoseconds).  We record the externally visible steps as an
event trace. -/

/-- Outcome of one loop iteration's interaction with the storage stream. -/
inductive ReadOutcome where
  | openFail (cause : String)
  | copyFail (cause : String)
  | ok (durationNs : Nat)
deriving DecidableEq, Repr

/-- Externally visible events of `ReadObject` (reader creation, drain call,
duration line printed to stdout, stream close). -/
inductive Event where
  | newReader (objName : String)
  | copyCall
  | printDuration (durationNs : Nat)
  | closeStream
deriving DecidableEq, Repr

/-- Error message built at line 123 (`fmt.Errorf("while creating reader
object: %v", err)`). -/
def openErrMsg (cause : String) : GoError :=
  "while creating reader object: " ++ cause

/-- Error message built at line 128 (`fmt.Errorf("while reading and
discarding content: %v", err)`). -/
def copyErrMsg (cause : String) : GoError :=
  "while reading and discarding content: " ++ cause

/-- One iteration of the `ReadObject` loop body (lines 119-134): create the
reader, on open failure return the open error; drain via `io.Copy`, on copy
failure return the copy error **without closing the stream**; on success
print the duration and then close the stream (`rc.Close()` at line 134 is
only reached after a successful copy, since both error branches `return`
first). -/
def readOnce (outcome : ReadOutcome) (objName : String) :
    List Event × Option GoError :=
  match outcome with
  | .openFail cause => ([.newReader objName], some (openErrMsg cause))
  | .copyFail cause =>
      ([.newReader objName, .copyCall], some (copyErrMsg cause))
  | .ok d =>
      ([.newReader objName, .copyCall, .printDuration d, .closeStream], none)

/-- The `for i := 0; i < NumOfReadCallPerWorker; i++` loop (line 118):
run iteration `i`, stop with the error if it fails, otherwise continue. -/
def readLoop (oracle : Nat → ReadOutcome) (objName : String) :
    Nat → Nat → List Event × Option GoError
  | _, 0 => ([], none)
  | i, fuel + 1 =>
      let step := readOnce (oracle i) objName
      match step.2 with
      | some e => (step.1, some e)
      | none =>
          let rest := readLoop oracle objName (i + 1) fuel
          (step.1 ++ rest.1, rest.2)

/-- `ReadObject(ctx, workerId, bucketHandle)` (lines 114-138): derive the
object name from the worker id, then run the read loop
`NumOfReadCallPerWorker` times. -/
def ReadObject (oracle : Nat → ReadOutcome) (workerId : Nat) :
    List Event × Option GoError :=
  readLoop oracle (objectName workerId) 0 NumOfReadCallPerWorker

/-- Number of `closeStream` events in a trace. -/
def closeCount (evs : List Event) : Nat :=
  evs.countP (fun e => e = .closeStream)

/-- Number of duration lines printed (stdout `fmt.Println(duration)`). -/
def printCount (evs : List Event) : Nat :=
  evs.countP (fun e => match e with | .printDuration _ => true | _ => false)

/-- Number of `newReader` calls (read attempts) in a trace. -/
def openCount (evs : List Event) : Nat :=
  evs.countP (fun e => match e with | .newReader _ => true | _ => false)

/-- The open step of an iteration succeeded (a reader was handed back,
i.e. the outcome was not an open failure). -/
def openSucceeded (outcome : ReadOutcome) : Bool :=
  match outcome with
  | .openFail _ => false
  | _ => true

/-- The outcome is a successful read. -/
def isOk (outcome : ReadOutcome) : Bool :=
  match outcome with
  | .ok _ => true
  | _ => false

/-- The error a failing iteration reports, as built by `ReadObject`. -/
def iterErr (outcome : ReadOutcome) : Option GoError :=
  match outcome with
  | .openFail cause => some (openErrMsg cause)
  | .copyFail cause => some (copyErrMsg cause)
  | .ok _ => none

/-! ## The worker closure (lines 173-181)

Each goroutine runs `err = ReadObject(ctx, idx, bucketHandle)` and on failure
wraps it as `fmt.Errorf("while reading object: %w", err)` before returning
it.  (The goroutines also race on the shared outer variable `err`, but the
value each returns to the errgroup is the one below.) -/

/-- Wrapping applied at line 177. -/
def workerWrap (e : GoError) : GoError :=
  "while reading object: " ++ e

/-- The error value (if any) a worker returns to the errgroup for a given
storage-oracle and worker id. -/
def workerResult (oracle : Nat → ReadOutcome) (workerId : Nat) :
    Option GoError :=
  match (ReadObject oracle workerId).2 with
  | some e => some (workerWrap e)
  | none => none

/-! ## The errgroup and terminal reporting (lines 184-191)

`eG.Wait()` returns the first non-nil error returned by any goroutine, in
the order in which the goroutines recorded their results; we pass that order
as a list.  The final report is one line: success on stdout, or the first
error on stderr.  The program then returns from `main` normally — there is
no `os.Exit` call anywhere in the source. -/

/-- `eG.Wait()`: the first non-`none` entry of the results in recording
order, `none` if every worker succeeded. -/
def waitFirstErr (results : List (Option GoError)) : Option GoError :=
  match results with
  | [] => none
  | some e :: _ => some e
  | none :: rest => waitFirstErr rest

/-- A line of terminal output, tagged by stream. -/
inductive OutLine where
  | stdoutLine (s : String)
  | stderrLine (s : String)
deriving DecidableEq, Repr

/-- How the process leaves `main`: a normal return (no exit-code call in the
source) or a runtime panic. -/
inductive ExitBehavior where
  | normalReturn
  | nilPanic
deriving DecidableEq, Repr

/-- Lines 186-190: `if err == nil` print the success message to stdout,
else print the error to stderr; then `main` returns. -/
def finalReport (waitErr : Option GoError) : List OutLine × ExitBehavior :=
  match waitErr with
  | none => ([.stdoutLine "Read benchmark completed successfully!"], .normalReturn)
  | some e =>
      ([.stderrLine ("Error while running benchmark: " ++ e)], .normalReturn)

/-! ## Startup sequence of `main` (lines 140-182)

Client construction and bucket creation are external calls, supplied as
oracle outcomes.  In Go, a failed `storage.NewClient`/`CreateHttpClient`
returns a nil `*storage.Client` together with the error, so we carry the
client as an `Option`.  The crucial control-flow facts, translated verbatim:

* line 155: `fmt.Errorf("while creating the client: %v", err)` — the built
  error value is **discarded** (not printed, not returned); execution falls
  through to `client.SetRetry` (line 158) even when `client` is nil.
  Calling `SetRetry` on a nil `*storage.Client` writes fields through the
  nil pointer, which panics.
* line 169: `fmt.Errorf("while creating the bucket: %v", err)` — likewise
  discarded; the worker-launch loop at line 172 runs regardless of the
  bucket-creation outcome. -/

/-- Steps `main` performs before (and including) launching the workers.
`bucketCreateCalled` records what `bucketHandle.Create` returned, so a trace
shows that the launch happens whatever that result was. -/
inductive StartupEvent where
  | setRetryCalled (clientIsNil : Bool)
  | bucketCreateCalled (result : Option GoError)
  | workersLaunched (count : Nat)
deriving DecidableEq, Repr

/-- What startup ends in: a nil-pointer panic, or the worker pool running. -/
inductive StartupOutcome where
  | panicked
  | running
deriving DecidableEq, Repr

/-- The startup path of `main`: client construction outcome `clientErr`
(`none` = success), bucket creation outcome `bucketErr`.  The middle
component is the list of output lines startup produces: it is empty on
every path, because both `fmt.Errorf` results are discarded.  No branch
stops before the worker launch except the nil-client panic inside
`SetRetry`. -/
def mainStartup (clientErr : Option GoError) (bucketErr : Option GoError) :
    List StartupEvent × List OutLine × StartupOutcome :=
  match clientErr with
  | some _ =>
      -- client == nil; SetRetry dereferences it and panics.
      ([.setRetryCalled true], [], .panicked)
  | none =>
      -- SetRetry succeeds, bucket creation error (if any) is ignored,
      -- all NumOfWorker goroutines are launched.
      ([.setRetryCalled false, .bucketCreateCalled bucketErr,
        .workersLaunched NumOfWorker],
       [], .running)

/-! ## Goroutine launch loop and the shared loop variable (lines 172-182)

```
for i := 0; i < NumOfWorker; i++ {
    eG.Go(func() error {
        idx := i
        ...
```

`idx := i` executes *inside* the goroutine, when the goroutine is scheduled,
reading the loop variable `i` that the `for` statement mutates (Go loop
variables were per-loop, not per-iteration, in the Go versions this
benchmark targets).  Task `t` is created during the iteration with `i = t`
and `i` only ever increases, ending at `NumOfWorker`; so the value task `t`
observes is the variable's value at its (arbitrary, scheduler-chosen) read
time, anywhere in `[t, NumOfWorker]`.  A schedule assigns each task the
loop-variable value it reads. -/

/-- `sched` is realizable by some interleaving of the `W` goroutines with
the launch loop: task `t` reads `i` no earlier than its own creation
(`t ≤ sched t`) and `i` never exceeds `W`. -/
def LegalSchedule (W : Nat) (sched : Nat → Nat) : Prop :=
  ∀ t, t < W → t ≤ sched t ∧ sched t ≤ W

instance (W : Nat) (sched : Nat → Nat) : Decidable (LegalSchedule W sched) :=
  inferInstanceAs (Decidable (∀ t, t < W → _ ∧ _))

/-- The shard indices the `W` launched read-loops observe under `sched`
(task `t`'s `idx := i` reads value `sched t`). -/
def observedIndices (W : Nat) (sched : Nat → Nat) : List Nat :=
  (List.range W).map sched

/-! ## `CreateGrpcClient` and the process environment (lines 93-112)

The environment is a finite map `String → Option String`.  `os.Setenv` /
`os.Unsetenv` failures call `log.Fatalf`, which terminates the process
without returning, so on every *return* path both calls succeeded; we model
them as total updates.  `storage.NewClient`'s outcome is an oracle.  Note
the `if err := os.Unsetenv(...)` statements shadow `err`, so both unsets run
whether or not `NewClient` failed. -/

/-- An environment: variable name to optional value. -/
abbrev Env := String → Option String

def setEnv (env : Env) (key value : String) : Env :=
  fun k => if k = key then some value else env k

def unsetEnv (env : Env) (key : String) : Env :=
  fun k => if k = key then none else env k

/-- `CreateGrpcClient`: set `STORAGE_USE_GRPC` and
`GOOGLE_CLOUD_ENABLE_DIRECT_PATH_XDS`, construct the client (outcome
`newClientErr`, `none` = success), then unset both variables, and return
the construction outcome together with the final environment. -/
def CreateGrpcClient (newClientErr : Option GoError) (env : Env) :
    Option GoError × Env :=
  let env1 := setEnv env "STORAGE_USE_GRPC" "gRPC"
  let env2 := setEnv env1 "GOOGLE_CLOUD_ENABLE_DIRECT_PATH_XDS" "true"
  -- client, err = storage.NewClient(...)  (runs under env2)
  let env3 := unsetEnv env2 "STORAGE_USE_GRPC"
  let env4 := unsetEnv env3 "GOOGLE_CLOUD_ENABLE_DIRECT_PATH_XDS"
  (newClientErr, env4)

/-! ## Helper lemmas -/

/-- If every iteration from `i` for `fuel` steps succeeds, the loop finishes
with no error, prints one duration per iteration, makes one reader and one
close per iteration. -/
lemma readLoop_all_ok (oracle : Nat → ReadOutcome) (n : String) :
    ∀ (fuel i : Nat), (∀ j, j < fuel → isOk (oracle (i + j)) = true) →
      (readLoop oracle n i fuel).2 = none ∧
      printCount (readLoop oracle n i fuel).1 = fuel ∧
      openCount (readLoop oracle n i fuel).1 = fuel ∧
      closeCount (readLoop oracle n i fuel).1 = fuel := by
  intro fuel
  induction fuel with
  | zero =>
      intro i _
      simp [readLoop, printCount, openCount, closeCount]
  | succ f ih =>
      intro i h
      have h0 : isOk (oracle i) = true := by simpa using h 0 (Nat.succ_pos _)
      cases ho : oracle i with
      | openFail c => rw [ho] at h0; simp [isOk] at h0
      | copyFail c => rw [ho] at h0; simp [isOk] at h0
      | ok d =>
          have hrest := ih (i + 1) (fun j hj => by
            have := h (j + 1) (Nat.succ_lt_succ hj)
            simpa [Nat.add_assoc, Nat.add_comm 1 j] using this)
          simp only [readLoop, ho, readOnce]
          simp only [printCount, openCount, closeCount, List.countP_append] at hrest ⊢
          simp [List.countP_cons, hrest.1, hrest.2.1, hrest.2.2.1, hrest.2.2.2]
          omega

/-- If the first failure (counting from `i`) happens at offset `k < fuel`,
the loop stops there: it returns exactly that iteration's error, has printed
`k` duration lines (one per successful read), created `k + 1` readers and
closed `k` streams. -/
lemma readLoop_first_fail (oracle : Nat → ReadOutcome) (n : String) :
    ∀ (k fuel i : Nat), k < fuel →
      (∀ j, j < k → isOk (oracle (i + j)) = true) →
      isOk (oracle (i + k)) = false →
      (readLoop oracle n i fuel).2 = iterErr (oracle (i + k)) ∧
      printCount (readLoop oracle n i fuel).1 = k ∧
      openCount (readLoop oracle n i fuel).1 = k + 1 ∧
      closeCount (readLoop oracle n i fuel).1 = k := by
  intro k
  induction k with
  | zero =>
      intro fuel i hk _ hbad
      match fuel, hk with
      | f + 1, _ =>
          have hbad' : isOk (oracle i) = false := hbad
          cases ho : oracle i with
          | ok d => rw [ho] at hbad'; simp [isOk] at hbad'
          | openFail c =>
              rw [show i + 0 = i from rfl, ho]
              simp [readLoop, ho, readOnce, iterErr, printCount, openCount,
                closeCount, List.countP_cons]
          | copyFail c =>
              rw [show i + 0 = i from rfl, ho]
              simp [readLoop, ho, readOnce, iterErr, printCount, openCount,
                closeCount, List.countP_cons]
  | succ kk ih =>
      intro fuel i hk hok hbad
      match fuel, hk with
      | f + 1, hk =>
          have h0 : isOk (oracle i) = true := by
            simpa using hok 0 (Nat.succ_pos _)
          cases ho : oracle i with
          | openFail c => rw [ho] at h0; simp [isOk] at h0
          | copyFail c => rw [ho] at h0; simp [isOk] at h0
          | ok d =>
              have hrest := ih f (i + 1) (by omega)
                (fun j hj => by
                  have := hok (j + 1) (Nat.succ_lt_succ hj)
                  simpa [Nat.add_assoc, Nat.add_comm 1 j] using this)
                (by
                  have : i + 1 + kk = i + (kk + 1) := by omega
                  rw [this]; exact hbad)
              have hshift : i + 1 + kk = i + (kk + 1) := by omega
              rw [hshift] at hrest
              simp only [readLoop, ho, readOnce]
              simp only [printCount, openCount, closeCount,
                List.countP_append] at hrest ⊢
              simp [List.countP_cons, hrest.1, hrest.2.1, hrest.2.2.1,
                hrest.2.2.2]
              omega

/-- The error component of the read loop does not depend on the object
name (the name appears only inside trace events). -/
lemma readLoop_snd_indep (oracle : Nat → ReadOutcome) (n₁ n₂ : String) :
    ∀ (fuel i : Nat),
      (readLoop oracle n₁ i fuel).2 = (readLoop oracle n₂ i fuel).2 := by
  intro fuel
  induction fuel with
  | zero => intro i; rfl
  | succ f ih =>
      intro i
      cases ho : oracle i <;>
        simp [readLoop, readOnce, ho, ih (i + 1)]

/-- `eG.Wait()` returns `none` exactly when every worker returned `none`. -/
lemma waitFirstErr_eq_none_iff (results : List (Option GoError)) :
    waitFirstErr results = none ↔ ∀ r ∈ results, r = none := by
  induction results with
  | nil => simp [waitFirstErr]
  | cons r rest ih =>
      cases r with
      | some e => simp [waitFirstErr]
      | none => simp [waitFirstErr, ih]

/-- Two list appends with distinct length-`m` starts are distinct. -/
lemma append_ne_of_take_ne (l₁ l₂ r₁ r₂ : List Char) (m : Nat)
    (h₁ : m ≤ l₁.length) (h₂ : m ≤ l₂.length)
    (hne : l₁.take m ≠ l₂.take m) :
    l₁ ++ r₁ ≠ l₂ ++ r₂ := by
  intro h
  apply hne
  calc l₁.take m = (l₁ ++ r₁).take m :=
        (List.take_append_of_le_length h₁).symm
    _ = (l₂ ++ r₂).take m := by rw [h]
    _ = l₂.take m := List.take_append_of_le_length h₂

/-! ## Claim theorems -/

/-- C1 counterexample: the claim says the close step runs exactly once
whenever the open step succeeded, "including on the path where the drain
step fails".  Concretely, with a drain (`io.Copy`) failure the open step
succeeded but `rc.Close()` at line 134 is never reached: the close-call
count of the read is `0`, not `1`. -/
theorem c1_close_skipped_when_copy_fails :
    openSucceeded (ReadOutcome.copyFail "connection reset") = true ∧
    closeCount (readOnce (ReadOutcome.copyFail "connection reset")
      (objectName 0)).1 ≠ 1 := by
  constructor
  · rfl
  · decide

/-- C1 amended: in one read, the close step executes exactly once when open
and drain both succeed, and zero times otherwise — in particular the stream
is not closed on the drain-failure path (both error branches `return`
before the `rc.Close()` call). -/
theorem c1_close_only_after_successful_copy (o : ReadOutcome) (n : String) :
    closeCount (readOnce o n).1 = (if isOk o = true then 1 else 0) := by
  cases o <;> simp [readOnce, closeCount, isOk, List.countP_cons]

/-- C2: when client construction fails, the program does not transition to
a reported failure: the formatted error at line 155 is discarded (no output
line is produced) and execution proceeds to `client.SetRetry` on the nil
client, which panics.  The claimed `ClientInitError` report never happens. -/
theorem c2_client_error_not_reported_panics_in_setretry
    (e : GoError) (b : Option GoError) :
    (mainStartup (some e) b).1 = [StartupEvent.setRetryCalled true] ∧
    (mainStartup (some e) b).2.1 = ([] : List OutLine) ∧
    (mainStartup (some e) b).2.2 = StartupOutcome.panicked := by
  simp [mainStartup]

/-- C3: the shard index is read from the shared loop variable at task
execution time, not captured at creation time, so the schedule in which
every goroutine starts only after the launch loop has finished is legal and
makes all `NumOfWorker` tasks observe the same final value `NumOfWorker` —
neither pairwise distinct nor inside `0..NumOfWorker-1`. -/
theorem c3_all_tasks_can_observe_final_index :
    LegalSchedule NumOfWorker (fun _ => NumOfWorker) ∧
    observedIndices NumOfWorker (fun _ => NumOfWorker) =
      List.replicate NumOfWorker NumOfWorker ∧
    ¬ (observedIndices NumOfWorker (fun _ => NumOfWorker)).Nodup := by
  refine ⟨?_, ?_, ?_⟩ <;> decide

/-- C4: whatever `bucketHandle.Create` returns — an "already exists" error,
any other error, or no error — `main` behaves identically: it prints
nothing (the line 169 `fmt.Errorf` value is discarded) and launches all
`NumOfWorker` workers.  In particular a provisioning failure other than
"already exists" does not abort before the worker launch. -/
theorem c4_bucket_create_result_ignored (b : Option GoError) :
    (mainStartup none b).2.2 = StartupOutcome.running ∧
    (mainStartup none b).2.1 = ([] : List OutLine) ∧
    StartupEvent.workersLaunched NumOfWorker ∈ (mainStartup none b).1 ∧
    (mainStartup none b).2 = (mainStartup none none).2 := by
  simp [mainStartup]

/-- C5 counterexample: two workers with distinct shard indices (0 and 1)
that hit the same reader-open failure return byte-for-byte identical error
values — the worker's failure result does not carry the shard index, so the
Coordinator cannot distinguish which shard it came from. -/
theorem c5_distinct_shards_same_failure_result :
    workerResult (fun _ => ReadOutcome.openFail "boom") 0 =
      workerResult (fun _ => ReadOutcome.openFail "boom") 1 ∧
    workerResult (fun _ => ReadOutcome.openFail "boom") 0 =
      some (workerWrap (openErrMsg "boom")) := by
  constructor <;> rfl

/-- C5 amended: a worker's failure result does carry the originating call
type — a wrapped reader-open error can never equal a wrapped stream-copy
error, whatever the underlying causes — but it does not carry the shard
index: the result is the same for every worker id. -/
theorem c5_result_carries_call_type_not_shard
    (c₁ c₂ : String) (oracle : Nat → ReadOutcome) (i j : Nat) :
    workerWrap (openErrMsg c₁) ≠ workerWrap (copyErrMsg c₂) ∧
    workerResult oracle i = workerResult oracle j := by
  constructor
  · intro h
    have hd := congrArg String.data h
    simp only [workerWrap, openErrMsg, copyErrMsg, String.data_append] at hd
    rw [← List.append_assoc, ← List.append_assoc] at hd
    exact append_ne_of_take_ne _ _ _ _ 29 (by decide) (by decide) (by decide) hd
  · unfold workerResult ReadObject
    rw [readLoop_snd_indep oracle (objectName i) (objectName j)]

/-- C6: the worker's read loop performs exactly
`NumOfReadCallPerWorker` attempts and prints one duration line each when
every read succeeds; and when the first failure occurs at position `k` it
returns that iteration's error immediately, having printed exactly `k`
duration lines — one per read that succeeded before the failure — and
attempted `k + 1` reads. -/
theorem c6_read_loop_counts (oracle : Nat → ReadOutcome) (workerId : Nat) :
    ((∀ i, i < NumOfReadCallPerWorker → isOk (oracle i) = true) →
      (ReadObject oracle workerId).2 = none ∧
      openCount (ReadObject oracle workerId).1 = NumOfReadCallPerWorker ∧
      printCount (ReadObject oracle workerId).1 = NumOfReadCallPerWorker) ∧
    (∀ k, k < NumOfReadCallPerWorker →
      (∀ j, j < k → isOk (oracle j) = true) →
      isOk (oracle k) = false →
      (ReadObject oracle workerId).2 = iterErr (oracle k) ∧
      iterErr (oracle k) ≠ none ∧
      printCount (ReadObject oracle workerId).1 = k ∧
      openCount (ReadObject oracle workerId).1 = k + 1) := by
  constructor
  · intro h
    have hall := readLoop_all_ok oracle (objectName workerId)
      NumOfReadCallPerWorker 0 (fun j hj => by simpa using h j hj)
    exact ⟨hall.1, hall.2.2.1, hall.2.1⟩
  · intro k hk hok hbad
    have hfail := readLoop_first_fail oracle (objectName workerId) k
      NumOfReadCallPerWorker 0 hk (fun j hj => by simpa using hok j hj)
      (by simpa using hbad)
    simp only [Nat.zero_add] at hfail
    refine ⟨hfail.1, ?_, hfail.2.1, hfail.2.2.1⟩
    cases hc : oracle k with
    | openFail c => simp [iterErr]
    | copyFail c => simp [iterErr]
    | ok d => rw [hc] at hbad; simp [isOk] at hbad

/-- C6 witness: a concrete schedule — the first read succeeds, the second
fails mid-copy — instantiating the failure branch of the loop theorem. -/
theorem c6_witness :
    (1 < NumOfReadCallPerWorker ∧
     (∀ j, j < 1 → isOk ((fun i => if i < 1 then ReadOutcome.ok 5
        else ReadOutcome.copyFail "reset") j) = true) ∧
     isOk ((fun i => if i < 1 then ReadOutcome.ok 5
        else ReadOutcome.copyFail "reset") 1) = false) ∧
    ((ReadObject (fun i => if i < 1 then ReadOutcome.ok 5
        else ReadOutcome.copyFail "reset") 0).2 =
      iterErr ((fun i => if i < 1 then ReadOutcome.ok 5
        else ReadOutcome.copyFail "reset") 1) ∧
     printCount (ReadObject (fun i => if i < 1 then ReadOutcome.ok 5
        else ReadOutcome.copyFail "reset") 0).1 = 1 ∧
     openCount (ReadObject (fun i => if i < 1 then ReadOutcome.ok 5
        else ReadOutcome.copyFail "reset") 0).1 = 2) := by
  constructor
  · refine ⟨?_, ?_, ?_⟩ <;> decide
  · have h := (c6_read_loop_counts (fun i => if i < 1 then ReadOutcome.ok 5
      else ReadOutcome.copyFail "reset") 0).2 1 (by decide) (by decide) (by decide)
    exact ⟨h.1, h.2.2.1, h.2.2.2⟩

/-- C7: after all workers have recorded their results, the success line is
printed (to stdout) exactly when no worker returned an error; otherwise the
line printed is the first-recorded error, on stderr; and in both cases
`main` returns normally (no exit-code call). -/
theorem c7_final_report_first_error (results : List (Option GoError)) :
    ((finalReport (waitFirstErr results)).1 =
        [OutLine.stdoutLine "Read benchmark completed successfully!"] ↔
      ∀ r ∈ results, r = none) ∧
    (∀ e, waitFirstErr results = some e →
      (finalReport (waitFirstErr results)).1 =
        [OutLine.stderrLine ("Error while running benchmark: " ++ e)]) ∧
    (finalReport (waitFirstErr results)).2 = ExitBehavior.normalReturn := by
  cases h : waitFirstErr results with
  | none =>
      refine ⟨?_, ?_, rfl⟩
      · simp [finalReport, ← waitFirstErr_eq_none_iff, h]
      · intro e he; exact absurd he (by simp)
  | some e =>
      refine ⟨?_, ?_, rfl⟩
      · constructor
        · intro hline; simp [finalReport] at hline
        · intro hall
          have hnone := (waitFirstErr_eq_none_iff results).2 hall
          rw [h] at hnone; exact absurd hnone (by simp)
      · intro e' he'
        injection he' with he''
        rw [← he'']
        simp [finalReport]

/-- C7 witness: with recorded results `[none, some "x"]` the error line for
`"x"` goes to stderr; with an all-success run the success line is printed. -/
theorem c7_witness :
    waitFirstErr [none, some "x"] = some "x" ∧
    (finalReport (waitFirstErr [none, some "x"])).1 =
      [OutLine.stderrLine ("Error while running benchmark: " ++ "x")] ∧
    (∀ r ∈ ([none, none] : List (Option GoError)), r = none) ∧
    (finalReport (waitFirstErr ([none, none] : List (Option GoError)))).1 =
      [OutLine.stdoutLine "Read benchmark completed successfully!"] := by
  refine ⟨by decide, ?_, by decide, ?_⟩
  · exact (c7_final_report_first_error [none, some "x"]).2.1 "x" (by decide)
  · exact (c7_final_report_first_error [none, none]).1.2 (by decide)

set_option maxRecDepth 8192 in
/-- C8: object-name derivation is the pure function
`prefix ++ decimal(i) ++ suffix` of the shard index, and over the shard
range `0..NumOfWorker-1` the derived names are pairwise distinct. -/
theorem c8_object_names_pairwise_distinct :
    (∀ i, objectName i = ObjectNamePrefix ++ Nat.repr i ++ ObjectNameSuffix) ∧
    (∀ i, i < NumOfWorker → ∀ j, j < NumOfWorker → i ≠ j →
      objectName i ≠ objectName j) :=
  ⟨fun _ => rfl, by decide⟩

/-- C8 witness: shards 0 and 1 are in range, distinct, and get distinct
object names. -/
theorem c8_witness :
    0 < NumOfWorker ∧ 1 < NumOfWorker ∧ (0 : Nat) ≠ 1 ∧
    objectName 0 ≠ objectName 1 := by
  refine ⟨by decide, by decide, by decide, ?_⟩
  exact c8_object_names_pairwise_distinct.2 0 (by decide) 1 (by decide)
    (by decide)

/-- C9 counterexample: if `STORAGE_USE_GRPC` was already set before the
call (here to `"uservalue"`), `CreateGrpcClient` returns with it unset —
the environment is *changed* by the call, contradicting "the process
environment is unchanged on every return path". -/
theorem c9_preexisting_variable_clobbered :
    (CreateGrpcClient none
        (setEnv (fun _ => none) "STORAGE_USE_GRPC" "uservalue")).2
        "STORAGE_USE_GRPC" = none ∧
    (setEnv (fun _ => none) "STORAGE_USE_GRPC" "uservalue")
        "STORAGE_USE_GRPC" = some "uservalue" ∧
    (CreateGrpcClient none
        (setEnv (fun _ => none) "STORAGE_USE_GRPC" "uservalue")).2 ≠
      setEnv (fun _ => none) "STORAGE_USE_GRPC" "uservalue" := by
  refine ⟨rfl, rfl, fun h => ?_⟩
  have hv := congrFun h "STORAGE_USE_GRPC"
  simp [CreateGrpcClient, setEnv, unsetEnv] at hv

/-- C9 amended: on every return path — client construction succeeding or
failing — both transport-selection variables end up unset and every other
variable keeps its value; hence the environment is unchanged exactly when
the two variables were unset to begin with (a pre-set value is lost, not
restored). -/
theorem c9_both_vars_unset_on_every_return (r : Option GoError) (env : Env) :
    (CreateGrpcClient r env).2 "STORAGE_USE_GRPC" = none ∧
    (CreateGrpcClient r env).2 "GOOGLE_CLOUD_ENABLE_DIRECT_PATH_XDS" = none ∧
    (∀ k, k ≠ "STORAGE_USE_GRPC" → k ≠ "GOOGLE_CLOUD_ENABLE_DIRECT_PATH_XDS" →
      (CreateGrpcClient r env).2 k = env k) ∧
    (env "STORAGE_USE_GRPC" = none →
      env "GOOGLE_CLOUD_ENABLE_DIRECT_PATH_XDS" = none →
      (CreateGrpcClient r env).2 = env) := by
  refine ⟨?_, ?_, ?_, ?_⟩
  · simp [CreateGrpcClient, setEnv, unsetEnv]
  · simp [CreateGrpcClient, setEnv, unsetEnv]
  · intro k h1 h2
    simp [CreateGrpcClient, setEnv, unsetEnv, h1, h2]
  · intro h1 h2
    funext k
    by_cases hk1 : k = "STORAGE_USE_GRPC"
    · subst hk1; simp [CreateGrpcClient, setEnv, unsetEnv, h1]
    · by_cases hk2 : k = "GOOGLE_CLOUD_ENABLE_DIRECT_PATH_XDS"
      · subst hk2; simp [CreateGrpcClient, setEnv, unsetEnv, h2]
      · simp [CreateGrpcClient, setEnv, unsetEnv, hk1, hk2]

/-- C9 witness: on a failing construction over an initially empty
environment, an unrelated variable is untouched and the whole environment
comes back unchanged. -/
theorem c9_witness :
    (("PATH" : String) ≠ "STORAGE_USE_GRPC") ∧
    (("PATH" : String) ≠ "GOOGLE_CLOUD_ENABLE_DIRECT_PATH_XDS") ∧
    (CreateGrpcClient (some "construction failed")
      (fun _ => none)).2 "PATH" = (fun _ => (none : Option String)) "PATH" ∧
    ((fun _ => (none : Option String)) "STORAGE_USE_GRPC" = none) ∧
    ((fun _ => (none : Option String))
      "GOOGLE_CLOUD_ENABLE_DIRECT_PATH_XDS" = none) ∧
    (CreateGrpcClient (some "construction failed") (fun _ => none)).2 =
      (fun _ => (none : Option String)) := by
  refine ⟨by decide, by decide, ?_, rfl, rfl, ?_⟩
  · exact (c9_both_vars_unset_on_every_return (some "construction failed")
      (fun _ => none)).2.2.1 "PATH" (by decide) (by decide)
  · exact (c9_both_vars_unset_on_every_return (some "construction failed")
      (fun _ => none)).2.2.2 rfl rfl

/-- C10: whenever client construction returns an error, `main` continues
past the discarded error check, `SetRetry` is invoked on the nil client
pointer, and the program ends in a nil-pointer panic rather than a clean
stop — for every failing construction outcome. -/
theorem c10_setretry_invoked_on_nil_client (e : GoError) (b : Option GoError) :
    StartupEvent.setRetryCalled true ∈ (mainStartup (some e) b).1 ∧
    (mainStartup (some e) b).2.2 = StartupOutcome.panicked := by
  simp [mainStartup]

end Bench
